import Mathlib

/-!
Verification development for the Mailspring onboarding helpers
(`src/app/internal_packages/onboarding/lib/onboarding-helpers.ts`).

The TypeScript module is shallowly embedded below: pure functions become
Lean functions, the network / DNS / XML-parsing collaborators become
explicit components of an `Env` record, and JavaScript values that may be
`undefined` become `Option` values.  JavaScript truthiness is modelled
explicitly (`jsTruthyStrOpt`, `jsTruthyNumOpt`, ...), and `Object.assign`
of a defaults object with the existing settings becomes a field-wise merge
where an existing (present) field wins.
-/

set_option maxRecDepth 100000

namespace Mailspring

/-! ## JavaScript string primitives -/

/-- ASCII lower-casing of a string, modelling `String.prototype.toLowerCase`
on the ASCII hostnames and domains this module handles. -/
def jsToLower (s : String) : String := String.mk (s.data.map Char.toLower)

/-- Split a character list at every occurrence of `sep`, keeping empty
pieces, as JavaScript `String.prototype.split` does. -/
def splitCharAux (sep : Char) : List Char → List (List Char)
  | [] => [[]]
  | x :: rest =>
    match splitCharAux sep rest with
    | [] => [[]]
    | piece :: pieces =>
      if x = sep then [] :: piece :: pieces else (x :: piece) :: pieces

/-- `s.split(sep)` for a one-character separator. -/
def jsSplitChar (sep : Char) (s : String) : List String :=
  (splitCharAux sep s.data).map String.mk

/-- The part of an email address after the last `@`, lower-cased:
models `emailAddress.split('@').pop().toLowerCase()`. -/
def domainOf (emailAddress : String) : String :=
  jsToLower ((jsSplitChar (Char.ofNat 64) emailAddress).getLastD "")

/-- The part of an email address before the first `@`:
models `emailAddress.split('@').shift()` / `emailAddress.split('@')[0]`. -/
def localPartOf (emailAddress : String) : String :=
  (jsSplitChar (Char.ofNat 64) emailAddress).headD ""

/-- Replace the first occurrence of `pat` in a character list by `rep`:
models JavaScript `String.prototype.replace` with a string pattern, which
replaces only the first occurrence. -/
def replaceFirstAux (pat rep : List Char) : List Char → List Char
  | [] => if pat.isPrefixOf ([] : List Char) then rep else []
  | c :: rest =>
    if pat.isPrefixOf (c :: rest) then rep ++ (c :: rest).drop pat.length
    else c :: replaceFirstAux pat rep rest

/-- String version of `replaceFirstAux`: `s.replace(pat, rep)` in JS. -/
def jsReplaceFirst (s pat rep : String) : String :=
  String.mk (replaceFirstAux pat.toList rep.toList s.toList)

/-! ## JavaScript truthiness helpers -/

/-- Truthiness of a possibly-undefined string (`undefined` and `""` are falsy). -/
def jsTruthyStrOpt : Option String → Bool
  | none => false
  | some s => s ≠ ""

/-- `a || b` on possibly-undefined strings. -/
def jsOrStrOpt (a b : Option String) : Option String :=
  if jsTruthyStrOpt a then a else b

/-- `a || b` where `a` is a possibly-undefined string and `b` a plain string. -/
def jsOrStrD (a : Option String) (b : String) : String :=
  match a with
  | some s => if s = "" then b else s
  | none => b

/-- `existing` key wins over the default: one field of
`Object.assign(defaults, existing)`. -/
def oOr {α : Type} (existing defaults : Option α) : Option α :=
  match existing with
  | some v => some v
  | none => defaults

/-! ## SHA-256 (as used through node's `crypto.createHash('sha256')`)

A faithful executable FIPS 180-4 SHA-256 over byte lists, with 32-bit
words represented as `Nat` reduced mod `2 ^ 32`. -/

def w32 (n : Nat) : Nat := n % 4294967296

def rotr (n x : Nat) : Nat := w32 ((x >>> n) ||| (x <<< (32 - n)))

def bigSigma0 (x : Nat) : Nat := (rotr 2 x) ^^^ (rotr 13 x) ^^^ (rotr 22 x)

def bigSigma1 (x : Nat) : Nat := (rotr 6 x) ^^^ (rotr 11 x) ^^^ (rotr 25 x)

def smallSigma0 (x : Nat) : Nat := (rotr 7 x) ^^^ (rotr 18 x) ^^^ (x >>> 3)

def smallSigma1 (x : Nat) : Nat := (rotr 17 x) ^^^ (rotr 19 x) ^^^ (x >>> 10)

def chF (x y z : Nat) : Nat := (x &&& y) ^^^ ((x ^^^ 4294967295) &&& z)

def majF (x y z : Nat) : Nat := (x &&& y) ^^^ (x &&& z) ^^^ (y &&& z)

def sha256K : List Nat :=
  [1116352408, 1899447441, 3049323471, 3921009573, 961987163,
   1508970993, 2453635748, 2870763221, 3624381080, 310598401,
   607225278, 1426881987, 1925078388, 2162078206, 2614888103,
   3248222580, 3835390401, 4022224774, 264347078, 604807628,
   770255983, 1249150122, 1555081692, 1996064986, 2554220882,
   2821834349, 2952996808, 3210313671, 3336571891, 3584528711,
   113926993, 338241895, 666307205, 773529912, 1294757372,
   1396182291, 1695183700, 1986661051, 2177026350, 2456956037,
   2730485921, 2820302411, 3259730800, 3345764771, 3516065817,
   3600352804, 4094571909, 275423344, 430227734, 506948616,
   659060556, 883997877, 958139571, 1322822218, 1537002063,
   1747873779, 1955562222, 2024104815, 2227730452, 2361852424,
   2428436474, 2756734187, 3204031479, 3329325298]

/-- Big-endian byte expansion of a number into `n` bytes. -/
def beBytes : Nat → Nat → List Nat
  | 0, _ => []
  | n + 1, v => beBytes n (v / 256) ++ [v % 256]

/-- SHA-256 message padding: `0x80`, zeros to 56 mod 64, then the 64-bit
big-endian bit length. -/
def sha256Pad (msg : List Nat) : List Nat :=
  let L := msg.length
  let k := (119 - (L % 64)) % 64
  msg ++ [128] ++ List.replicate k 0 ++ beBytes 8 (8 * L)

/-- Split a byte list into 64-byte blocks (fuel-based structural recursion,
with fuel the list length, so it reduces inside the kernel). -/
def toBlocksAux : Nat → List Nat → List (List Nat)
  | 0, _ => []
  | _, [] => []
  | n + 1, c :: rest => ((c :: rest).take 64) :: toBlocksAux n ((c :: rest).drop 64)

def toBlocks (l : List Nat) : List (List Nat) := toBlocksAux l.length l

/-- Group bytes four at a time into big-endian 32-bit words. -/
def bytesToWords : List Nat → List Nat
  | b0 :: b1 :: b2 :: b3 :: rest =>
    (b0 * 16777216 + b1 * 65536 + b2 * 256 + b3) :: bytesToWords rest
  | _ => []

/-- Extend the 16-word message schedule by `fuel` further words. -/
def extendLoop : Nat → Array Nat → Array Nat
  | 0, w => w
  | n + 1, w =>
    let i := w.size
    let nw := w32 (w.getD (i - 16) 0 + smallSigma0 (w.getD (i - 15) 0) +
                   w.getD (i - 7) 0 + smallSigma1 (w.getD (i - 2) 0))
    extendLoop n (w.push nw)

structure Hash8 where
  a : Nat
  b : Nat
  c : Nat
  d : Nat
  e : Nat
  f : Nat
  g : Nat
  h : Nat
deriving DecidableEq, Repr

def sha256Init : Hash8 :=
  ⟨1779033703, 3144134277, 1013904242, 2773480762, 1359893119, 2600822924, 528734635, 1541459225⟩

def compressWord (st : Hash8) (kw : Nat × Nat) : Hash8 :=
  let t1 := w32 (st.h + bigSigma1 st.e + chF st.e st.f st.g + kw.1 + kw.2)
  let t2 := w32 (bigSigma0 st.a + majF st.a st.b st.c)
  ⟨w32 (t1 + t2), st.a, st.b, st.c, w32 (st.d + t1), st.e, st.f, st.g⟩

def sha256Block (hs : Hash8) (block : List Nat) : Hash8 :=
  let w := extendLoop 48 (Array.mk (bytesToWords block))
  let st := (sha256K.zip w.toList).foldl compressWord hs
  ⟨w32 (hs.a + st.a), w32 (hs.b + st.b), w32 (hs.c + st.c), w32 (hs.d + st.d),
   w32 (hs.e + st.e), w32 (hs.f + st.f), w32 (hs.g + st.g), w32 (hs.h + st.h)⟩

def sha256Digest (msg : List Nat) : Hash8 :=
  (toBlocks (sha256Pad msg)).foldl sha256Block sha256Init

def hexDigit (n : Nat) : Char :=
  if n < 10 then Char.ofNat (48 + n) else Char.ofNat (87 + n)

/-- Lower-case hexadecimal rendering of a 32-bit word, 8 digits. -/
def w32Hex (n : Nat) : List Char :=
  (List.range 8).map (fun i => hexDigit ((n >>> (28 - 4 * i)) % 16))

/-- Lower-case hex digest of a byte-list message: `digest('hex')` in node. -/
def sha256Hex (msg : List Nat) : String :=
  let hs := sha256Digest msg
  String.mk (w32Hex hs.a ++ w32Hex hs.b ++ w32Hex hs.c ++ w32Hex hs.d ++
             w32Hex hs.e ++ w32Hex hs.f ++ w32Hex hs.g ++ w32Hex hs.h)

/-- UTF-8 encoding of one unicode scalar value. -/
def utf8Bytes (c : Char) : List Nat :=
  let n := c.toNat
  if n < 128 then [n]
  else if n < 2048 then [192 + n / 64, 128 + n % 64]
  else if n < 65536 then [224 + n / 4096, 128 + (n / 64) % 64, 128 + n % 64]
  else [240 + n / 262144, 128 + (n / 4096) % 64, 128 + (n / 64) % 64, 128 + n % 64]

/-- UTF-8 byte sequence of a string (`update(idString, 'utf8')`). -/
def strUtf8 (s : String) : List Nat :=
  s.data.foldr (fun c acc => utf8Bytes c ++ acc) []

-- Standard test vectors, checking the SHA-256 embedding against FIPS 180-4.
example : sha256Hex (strUtf8 "abc") =
    "ba7816bf8f01cfea414140de5dae2223b00361a396177a9cb410ff61f20015ad" := by decide

example : sha256Hex (strUtf8 "") =
    "e3b0c44298fc1c149afbf4c8996fb92427ae41e4649b934ca495991b7852b855" := by decide

/-! ## JSON.stringify fragment

`idForAccount` serialises an object whose values are strings or
`undefined`; `JSON.stringify` keeps keys in insertion order, omits keys
whose value is `undefined`, and escapes string contents. -/

/-- JSON escaping of one character, per `JSON.stringify`. -/
def jsonEscapeChar (c : Char) : String :=
  if c = Char.ofNat 34 then "\\\""
  else if c = Char.ofNat 92 then "\\\\"
  else if c = Char.ofNat 8 then "\\b"
  else if c = Char.ofNat 9 then "\\t"
  else if c = Char.ofNat 10 then "\\n"
  else if c = Char.ofNat 12 then "\\f"
  else if c = Char.ofNat 13 then "\\r"
  else if c.toNat < 32 then "\\u00" ++ String.mk [hexDigit (c.toNat / 16), hexDigit (c.toNat % 16)]
  else String.mk [c]

/-- A JSON string literal with quotes and escapes. -/
def jsonStr (s : String) : String :=
  "\"" ++ s.data.foldr (fun c acc => jsonEscapeChar c ++ acc) "" ++ "\""

/-- `JSON.stringify` of an object with string-or-undefined values, keys in
the given insertion order; `undefined` values drop their key. -/
def jsonStringifyStrObj (pairs : List (String × Option String)) : String :=
  let items := pairs.filterMap (fun p => p.2.map (fun v => jsonStr p.1 ++ ":" ++ jsonStr v))
  "\x7b" ++ String.intercalate "," items ++ "\x7d"

/-! ## Connection settings and accounts -/

/-- A port value as it may appear in settings: a JSON number, a string
copied verbatim from an XML document, or JavaScript `NaN`. -/
inductive PortV where
  | num (n : Nat)
  | str (s : String)
  | nan
deriving DecidableEq, Repr

/-- Flat connection-settings mapping; `none` models an absent key. -/
structure Settings where
  imap_host : Option String
  imap_port : Option PortV
  imap_username : Option String
  imap_password : Option String
  imap_security : Option String
  imap_allow_insecure_ssl : Option Bool
  smtp_host : Option String
  smtp_port : Option PortV
  smtp_username : Option String
  smtp_password : Option String
  smtp_security : Option String
  smtp_allow_insecure_ssl : Option Bool
  container_folder : Option String
  username : Option String
  email : Option String
  refresh_client_id : Option String
  refresh_token : Option String
deriving DecidableEq, Repr

def emptySettings : Settings :=
  ⟨none, none, none, none, none, none, none, none, none,
   none, none, none, none, none, none, none, none⟩

/-- `Object.assign(defaults, existing)`: every key present on `existing`
overwrites the default; keys absent from `existing` keep the default. -/
def mergeSettings (defaults existing : Settings) : Settings where
  imap_host := oOr existing.imap_host defaults.imap_host
  imap_port := oOr existing.imap_port defaults.imap_port
  imap_username := oOr existing.imap_username defaults.imap_username
  imap_password := oOr existing.imap_password defaults.imap_password
  imap_security := oOr existing.imap_security defaults.imap_security
  imap_allow_insecure_ssl := oOr existing.imap_allow_insecure_ssl defaults.imap_allow_insecure_ssl
  smtp_host := oOr existing.smtp_host defaults.smtp_host
  smtp_port := oOr existing.smtp_port defaults.smtp_port
  smtp_username := oOr existing.smtp_username defaults.smtp_username
  smtp_password := oOr existing.smtp_password defaults.smtp_password
  smtp_security := oOr existing.smtp_security defaults.smtp_security
  smtp_allow_insecure_ssl := oOr existing.smtp_allow_insecure_ssl defaults.smtp_allow_insecure_ssl
  container_folder := oOr existing.container_folder defaults.container_folder
  username := oOr existing.username defaults.username
  email := oOr existing.email defaults.email
  refresh_client_id := oOr existing.refresh_client_id defaults.refresh_client_id
  refresh_token := oOr existing.refresh_token defaults.refresh_token

structure Account where
  name : Option String
  emailAddress : String
  provider : String
  settings : Settings
  id : String
  label : Option String
  authedAt : Option Nat
deriving DecidableEq, Repr

/-! ## Identity hashing (`idForAccount`) -/

/-- The four-field object `settingsThatCouldChangeMailContents`, in the
source's insertion order. -/
def settingsThatCouldChangeMailContents (connectionSettings : Settings) :
    List (String × Option String) :=
  [("imap_username", connectionSettings.imap_username),
   ("imap_host", connectionSettings.imap_host),
   ("smtp_username", connectionSettings.smtp_username),
   ("smtp_host", connectionSettings.smtp_host)]

/-- `idForAccount`: SHA-256 of the email address concatenated with the
JSON of the four critical fields, hex, truncated to 8 characters. -/
def idForAccount (emailAddress : String) (connectionSettings : Settings) : String :=
  let idString :=
    emailAddress ++ jsonStringifyStrObj (settingsThatCouldChangeMailContents connectionSettings)
  (sha256Hex (strUtf8 idString)).take 8

/-! ## MX resolver -/

structure MxRecord where
  exchange : String
  priority : Nat
deriving DecidableEq, Repr

/-- `mxRecordsForDomain`: the promise only ever resolves — an error from
`dns.resolveMx` resolves to `[]`, success resolves to the lower-cased
exchanges in record order. -/
def mxRecordsForDomain (lookup : Except String (List MxRecord)) : List String :=
  match lookup with
  | .error _ => []
  | .ok addresses => addresses.map (fun a => jsToLower a.exchange)

/-! ## Provider tables -/

/-- One server entry of a Mailcore structured template
(`mailcore-provider-settings.json`), all fields possibly absent. -/
structure McServer where
  hostname : Option String
  port : Option Nat
  starttls : Option Bool
  ssl : Option Bool
  tls : Option Bool
deriving DecidableEq, Repr

def McServer.emptyServer : McServer := ⟨none, none, none, none, none⟩

/-- A Mailcore structured template with its match rules. -/
structure McTemplate where
  domainMatch : List String
  mxMatch : List String
  imapServers : List McServer
  smtpServers : List McServer
deriving DecidableEq, Repr

/-- A Mailspring preset template (`mailspring-provider-settings.json`);
`aliasKey` models the template's `alias` key (`alias` is reserved in Lean). -/
structure MsTemplate where
  aliasKey : Option String
  imap_host : Option String
  imap_port : Option PortV
  imap_security : Option String
  imap_user_format : Option String
  imap_allow_insecure_ssl : Option Bool
  smtp_host : Option String
  smtp_port : Option PortV
  smtp_security : Option String
  smtp_user_format : Option String
  smtp_allow_insecure_ssl : Option Bool
  container_folder : Option String
deriving DecidableEq, Repr

/-! ## Autoconfig documents (xml2js output shape) -/

/-- An XML element position that may hold one element or an array of them
(`explicitArray: false`). -/
inductive OneOrMany (α : Type) where
  | one (a : α)
  | many (l : List α)
deriving DecidableEq, Repr

/-- An `incomingServer` / `outgoingServer` element; `typeAttr` is the
`$`-bag attribute `type`, the rest are child elements. -/
structure AutoconfigServer where
  typeAttr : String
  hostname : Option String
  port : Option String
  username : Option String
  socketType : Option String
deriving DecidableEq, Repr

/-- An `emailProvider` element; `idAttr` is the `$`-bag attribute `id`. -/
structure EmailProvider where
  idAttr : String
  incomingServer : Option (OneOrMany AutoconfigServer)
  outgoingServer : Option (OneOrMany AutoconfigServer)
deriving DecidableEq, Repr

/-- A parsed autoconfig document (root unwrapped by `explicitRoot: false`). -/
structure AutoconfigDoc where
  emailProvider : Option (OneOrMany EmailProvider)
deriving DecidableEq, Repr

/-- An HTTP response as `node-fetch` presents it to this module. -/
structure FetchResp where
  ok : Bool
  status : Nat
  body : String
deriving DecidableEq, Repr

/-- The external collaborators and static tables the resolution chain
consults: anchored regex testing, DNS, HTTP fetch, XML parsing, the two
provider tables, and the deployment's container-folder default. -/
structure Env where
  anchoredRegexTest : String → String → Bool
  dns : String → Except String (List MxRecord)
  fetch : String → Except String FetchResp
  parseXml : String → Except String AutoconfigDoc
  mailcoreTable : List McTemplate
  mailspringTable : List (String × MsTemplate)
  containerFolderDefault : String

/-! ## Remote autoconfig fetcher -/

def autoconfigUrl1 (domain : String) : String :=
  "https://autoconfig." ++ domain ++ "/mail/config-v1.1.xml"

def autoconfigUrl2 (domain : String) : String :=
  "https://" ++ domain ++ "/.well-known/autoconfig/mail/config-v1.1.xml"

/-- The body of `getThunderbirdAutoconfig` before its `try`/`catch`: a
network failure is an exception, a non-ok response throws
`HTTP error! Status: ...`, and an XML parse failure is an exception. -/
def getThunderbirdAutoconfigBody (env : Env) (url : String) : Except String AutoconfigDoc :=
  match env.fetch url with
  | .error e => .error e
  | .ok response =>
    if response.ok = false then .error ("HTTP error! Status: " ++ toString response.status)
    else env.parseXml response.body

/-- `getThunderbirdAutoconfig`: the surrounding `try`/`catch` converts any
exception into the value `false` (here `none`). -/
def getThunderbirdAutoconfig (env : Env) (url : String) : Option AutoconfigDoc :=
  (getThunderbirdAutoconfigBody env url).toOption

/-- The record built by `extractServerDetails`. -/
structure ServerDetails where
  host : Option String
  port : Option String
  username : String
  security : String
deriving DecidableEq, Repr

/-- `extractServerDetails`: username from the `%EMAILLOCALPART%`
placeholder or the full address; security from `socketType` with a
`STARTTLS` default. -/
def extractServerDetails (server : AutoconfigServer) (account : Account) : ServerDetails :=
  let username :=
    match server.username with
    | some u =>
      if u = "%EMAILLOCALPART%" then localPartOf account.emailAddress else account.emailAddress
    | none => account.emailAddress
  let security :=
    match server.socketType with
    | some st =>
      if st = "plain" then "None"
      else if st = "STARTTLS" then "STARTTLS"
      else if st = "SSL" then "SSL / TLS"
      else "STARTTLS"
    | none => "STARTTLS"
  ⟨server.hostname, server.port, username, security⟩

/-- The scan for the first server entry of the given type: the `for`/`break`
loop over an array, or the type test on a single element. -/
def findServerOfType (ty : String) : OneOrMany AutoconfigServer → Option AutoconfigServer
  | .one s => if s.typeAttr = ty then some s else none
  | .many l => l.find? (fun s => s.typeAttr = ty)

/-- The provider the document interpretation settles on: the single
`emailProvider` element, or — when the document declares an array — the
entry whose `id` attribute equals the queried domain. -/
def selectedProvider (doc : AutoconfigDoc) (domain : String) : Option EmailProvider :=
  match doc.emailProvider with
  | none => none
  | some (.one p) => some p
  | some (.many ps) => ps.find? (fun p => p.idAttr = domain)

/-- The `settings` object literal of `TryThunderbirdAutoconfig` (source
lines 473-487), before the merge with the existing settings. -/
def autoconfigDefaults (populatedSettings : Settings) (account : Account) (domain : String)
    (inc outg : OneOrMany AutoconfigServer) : Settings :=
  let imapDetails := (findServerOfType "imap" inc).map (fun s => extractServerDetails s account)
  let smtpDetails := (findServerOfType "smtp" outg).map (fun s => extractServerDetails s account)
  { imap_host := some (jsOrStrD (imapDetails.bind ServerDetails.host) ("imap." ++ domain))
    imap_port := (imapDetails.bind ServerDetails.port).map PortV.str
    imap_username := imapDetails.map ServerDetails.username
    imap_password := populatedSettings.imap_password
    imap_security := imapDetails.map ServerDetails.security
    imap_allow_insecure_ssl := some false
    smtp_host := some (jsOrStrD (smtpDetails.bind ServerDetails.host) ("smtp." ++ domain))
    smtp_port := (smtpDetails.bind ServerDetails.port).map PortV.str
    smtp_username := smtpDetails.map ServerDetails.username
    smtp_password := jsOrStrOpt populatedSettings.smtp_password populatedSettings.imap_password
    smtp_security := smtpDetails.map ServerDetails.security
    smtp_allow_insecure_ssl := some false
    container_folder := some ""
    username := none
    email := none
    refresh_client_id := none
    refresh_token := none }

/-- The tail of the document interpretation, given the selected provider
(or `none` when the document was unusable): require both server elements,
then merge the synthesized settings under the existing ones. -/
def thunderbirdSettingsFromProvider (populatedSettings : Settings) (account : Account)
    (domain : String) : Option EmailProvider → Option Settings
  | none => none
  | some provider =>
    match provider.incomingServer, provider.outgoingServer with
    | some inc, some outg =>
      some (mergeSettings (autoconfigDefaults populatedSettings account domain inc outg)
        populatedSettings)
    | _, _ => none

/-- The document-interpretation half of `TryThunderbirdAutoconfig`: given
the (possibly failed) fetched document, produce the merged settings or
`none` for `return false`. -/
def thunderbirdSettingsFromDoc (populatedSettings : Settings) (account : Account)
    (domain : String) (docOpt : Option AutoconfigDoc) : Option Settings :=
  thunderbirdSettingsFromProvider populatedSettings account domain
    (docOpt.bind (fun doc => selectedProvider doc domain))

/-- `TryThunderbirdAutoconfig`: fetch the first well-known URL, fall back
to the second when it yields `false`, then interpret the document;
`none` models the `return false` paths. -/
def TryThunderbirdAutoconfig (env : Env) (populated account : Account) : Option Account :=
  let domain := domainOf account.emailAddress
  let autoConfig :=
    match getThunderbirdAutoconfig env (autoconfigUrl1 domain) with
    | none => getThunderbirdAutoconfig env (autoconfigUrl2 domain)
    | some d => some d
  (thunderbirdSettingsFromDoc populated.settings account domain autoConfig).map
    (fun s => { populated with settings := s })

/-! ## Structured-table (Mailcore) path -/

/-- `usernameWithFormat` from `expandAccountWithCommonSettings`. -/
def usernameWithFormat (emailAddress : String) (format : Option String) : Option String :=
  if format = some "email" then some emailAddress
  else if format = some "email-without-domain" then some (localPartOf emailAddress)
  else none

/-- Whether one Mailcore template matches: any `domain-match` pattern
fully matches the domain, or any `mx-match` pattern fully matches some
MX hostname. -/
def mailcoreMatches (env : Env) (mxRecords : List String) (domain : String)
    (p : McTemplate) : Bool :=
  p.domainMatch.any (fun t => env.anchoredRegexTest t domain) ||
  p.mxMatch.any (fun t => mxRecords.any (fun record => env.anchoredRegexTest t record))

/-- `Object.values(MailcoreProviderSettings).find(...)`: first match in
table order. -/
def mailcoreFind (env : Env) (mxRecords : List String) (domain : String) : Option McTemplate :=
  env.mailcoreTable.find? (mailcoreMatches env mxRecords domain)

/-- JS truthiness of a possibly-undefined boolean flag. -/
def jsBoolOpt (o : Option Bool) : Bool := o.getD false

/-- Security string for a Mailcore server entry:
`starttls ? 'STARTTLS' : ssl || tls ? 'SSL / TLS' : 'none'`. -/
def mcSecurity (s : McServer) : String :=
  if jsBoolOpt s.starttls then "STARTTLS"
  else if jsBoolOpt s.ssl || jsBoolOpt s.tls then "SSL / TLS"
  else "none"

/-- The `defaults` object of the structured-table branch. -/
def mailcoreDefaults (template : McTemplate) (domain : String) (emailAddress : String)
    (populatedSettings : Settings) : Settings :=
  let imap := template.imapServers.headD McServer.emptyServer
  let smtp := template.smtpServers.headD McServer.emptyServer
  { imap_host := some (jsReplaceFirst (imap.hostname.getD "") "\x7bdomain\x7d" domain)
    imap_port := imap.port.map PortV.num
    imap_username := usernameWithFormat emailAddress (some "email")
    imap_password := populatedSettings.imap_password
    imap_security := some (mcSecurity imap)
    imap_allow_insecure_ssl := some false
    smtp_host := some (jsReplaceFirst (smtp.hostname.getD "") "\x7bdomain\x7d" domain)
    smtp_port := smtp.port.map PortV.num
    smtp_username := usernameWithFormat emailAddress (some "email")
    smtp_password := jsOrStrOpt populatedSettings.smtp_password populatedSettings.imap_password
    smtp_security := some (mcSecurity smtp)
    smtp_allow_insecure_ssl := some false
    container_folder := some ""
    username := none
    email := none
    refresh_client_id := none
    refresh_token := none }

/-! ## Preset-table (Mailspring) path -/

/-- `Number(x)` on a possibly-absent port value, restricted to the
non-negative integer numerals and the empty string that occur here;
`none` models `NaN`. -/
def jsNumber : Option PortV → Option Nat
  | none => none
  | some (.num n) => some n
  | some .nan => none
  | some (.str s) =>
    if s = "" then some 0
    else if s.data.all Char.isDigit then
      some (s.data.foldl (fun acc c => acc * 10 + (c.toNat - 48)) 0)
    else none

/-- JS truthiness of the `Number(...)` result: `NaN` and `0` are falsy. -/
def jsTruthyNumOpt : Option Nat → Bool
  | none => false
  | some n => n ≠ 0

/-- IMAP port/security inference of the preset path (source lines 170-179).
`sec0` is the raw `imap_security`, `port0` the `Number(imap_port)` value. -/
def presetInferImap (sec0 : Option String) (port0 : Option Nat) : String × Nat :=
  let s := sec0.getD ""
  let n := port0.getD 0
  if jsTruthyStrOpt sec0 = false ∧ jsTruthyNumOpt port0 = false then ("SSL / TLS", 993)
  else if jsTruthyStrOpt sec0 = false then
    (if n = 993 then "SSL / TLS" else "none", n)
  else if jsTruthyNumOpt port0 = false then
    (s, if s = "SSL / TLS" then 993 else 143)
  else (s, n)

/-- SMTP port/security inference of the preset path (source lines 181-190). -/
def presetInferSmtp (sec0 : Option String) (port0 : Option Nat) : String × Nat :=
  let s := sec0.getD ""
  let n := port0.getD 0
  if jsTruthyStrOpt sec0 = false ∧ jsTruthyNumOpt port0 = false then ("SSL / TLS", 465)
  else if jsTruthyStrOpt sec0 = false then
    (if n = 587 then "STARTTLS" else if n = 465 then "SSL / TLS" else "none", n)
  else if jsTruthyNumOpt port0 = false then
    (s, if s = "STARTTLS" then 587 else if s = "SSL / TLS" then 465 else 25)
  else (s, n)

/-- `MailspringProviderSettings[key]`. -/
def lookupMs (table : List (String × MsTemplate)) (key : String) : Option MsTemplate :=
  (table.find? (fun kv => kv.1 = key)).map (fun kv => kv.2)

/-- The generated generic fallback preset (source lines 161-167). -/
def fallbackTemplate (domain : String) : MsTemplate :=
  { aliasKey := none
    imap_host := some ("imap." ++ domain)
    imap_port := none
    imap_security := none
    imap_user_format := some "email"
    imap_allow_insecure_ssl := none
    smtp_host := some ("smtp." ++ domain)
    smtp_port := none
    smtp_security := none
    smtp_user_format := some "email"
    smtp_allow_insecure_ssl := none
    container_folder := some "" }

/-- The template the preset path settles on: domain key, then provider
key, one alias hop (a dangling alias leaves `none`, on which the code
would throw), else the generated fallback. -/
def presetTemplateFor (env : Env) (domain provider : String) : Option MsTemplate :=
  match (lookupMs env.mailspringTable domain).orElse
      (fun _ => lookupMs env.mailspringTable provider) with
  | some t =>
    match t.aliasKey with
    | some a => if a ≠ "" then lookupMs env.mailspringTable a else some t
    | none => some t
  | none => some (fallbackTemplate domain)

/-- The container-folder override (source lines 212-219), applied after the
merge on the preset path only. -/
def containerFolderOverride (containerFolderDefault : String) (merged : Settings) : Settings :=
  if containerFolderDefault ≠ "Mailspring" ∧
      (merged.container_folder = some "" ∨ merged.container_folder = none) then
    { merged with container_folder := some containerFolderDefault }
  else merged

/-- The `defaults` object literal of the preset path (source lines
192-206), with the inference rules applied to the template's security and
port fields and the `%EMAILDOMAIN%` placeholder substituted in `ih`/`sh`
(the template's two host strings). -/
def presetDefaults (mstemplate : MsTemplate) (ih sh : String) (populatedSettings : Settings)
    (account : Account) (domain : String) : Settings :=
  let imapInferred := presetInferImap mstemplate.imap_security (jsNumber mstemplate.imap_port)
  let smtpInferred := presetInferSmtp mstemplate.smtp_security (jsNumber mstemplate.smtp_port)
  { imap_host := some (jsReplaceFirst ih "%EMAILDOMAIN%" domain)
    imap_port := some (PortV.num imapInferred.2)
    imap_username := usernameWithFormat account.emailAddress mstemplate.imap_user_format
    imap_password := populatedSettings.imap_password
    imap_security := some imapInferred.1
    imap_allow_insecure_ssl := some (jsBoolOpt mstemplate.imap_allow_insecure_ssl)
    smtp_host := some (jsReplaceFirst sh "%EMAILDOMAIN%" domain)
    smtp_port := some (PortV.num smtpInferred.2)
    smtp_username := usernameWithFormat account.emailAddress mstemplate.smtp_user_format
    smtp_password := jsOrStrOpt populatedSettings.smtp_password populatedSettings.imap_password
    smtp_security := some smtpInferred.1
    smtp_allow_insecure_ssl := some (jsBoolOpt mstemplate.smtp_allow_insecure_ssl)
    container_folder := mstemplate.container_folder
    username := none
    email := none
    refresh_client_id := none
    refresh_token := none }

/-- The preset path once a template is fixed: synthesize the defaults
(erroring, as the JS `TypeError` would, when a host is absent), merge,
and apply the container-folder override. -/
def presetApply (env : Env) (populated account : Account) (domain : String)
    (mstemplate : MsTemplate) : Except String Account :=
  match mstemplate.imap_host, mstemplate.smtp_host with
  | some ih, some sh =>
    .ok { populated with settings := containerFolderOverride env.containerFolderDefault (mergeSettings (presetDefaults mstemplate ih sh populated.settings account domain) populated.settings) }
  | _, _ => .error "TypeError: host is undefined"

/-- The preset-table tail of `expandAccountWithCommonSettings` (source
lines 152-220).  Accessing a field of a dangling-alias `undefined`
template, or calling `.replace` on an absent host, throws a `TypeError`,
modelled as `Except.error`. -/
def presetStage (env : Env) (populated account : Account) (domain : String) :
    Except String Account :=
  match presetTemplateFor env domain account.provider with
  | none => .error "TypeError: mstemplate is undefined"
  | some mstemplate => presetApply env populated account domain mstemplate

/-! ## The central resolution function -/

/-- `expandAccountWithCommonSettings`: structured table, then
Thunderbird autoconfig, then the preset table.  `populated` is the
clone of `account`, here the account value itself. -/
def expandAccountWithCommonSettings (env : Env) (account : Account) : Except String Account :=
  match mailcoreFind env (mxRecordsForDomain (env.dns (domainOf account.emailAddress)))
      (domainOf account.emailAddress) with
  | some template =>
    .ok { account with settings := mergeSettings (mailcoreDefaults template (domainOf account.emailAddress) account.emailAddress account.settings) account.settings }
  | none =>
    match TryThunderbirdAutoconfig env account account with
    | some acct => .ok acct
    | none => presetStage env account account (domainOf account.emailAddress)

/-! ## Finalizer and OAuth account builders -/

/-- JS truthiness of a possibly-undefined port value (`0`, `""` and `NaN`
are falsy). -/
def jsTruthyPortOpt : Option PortV → Bool
  | none => false
  | some (.num n) => n ≠ 0
  | some (.str s) => s ≠ ""
  | some .nan => false

/-- `port /= 1`: numeric coercion by dividing by one. -/
def jsDivOne : PortV → PortV
  | .num n => .num n
  | .nan => .nan
  | .str s =>
    match jsNumber (some (.str s)) with
    | some n => .num n
    | none => .nan

/-- Modelled from the spec: the OAuth token-exchange results, profile
responses, the external IMAP/SMTP validator (`MailsyncProcess.test`) and
the clock, which live outside this module (`onboarding-constants.ts`,
`mailspring-exports`). -/
structure OAuthEnv where
  tokenResult : Except String (String × String)
  profileOk : Bool
  msMail : Option String
  msDisplayName : Option String
  msEmail : Option String
  gmailEmail : String
  gmailName : Option String
  validatorOk : Account → Bool
  now : Nat

/-- Modelled from the spec: the fixed OAuth client ids of
`onboarding-constants.ts` (opaque strings to this module). -/
def GMAIL_CLIENT_ID : String := "gmail-client-id"

/-- Modelled from the spec: see `GMAIL_CLIENT_ID`. -/
def O365_CLIENT_ID : String := "o365-client-id"

/-- Template-literal interpolation of a possibly-undefined string. -/
def jsInterp (o : Option String) : String := o.getD "undefined"

/-- The mutations `finalizeAndValidateAccount` performs before the
external connection test: trim hosts, recompute the id (from the settings
as of that line — host trims applied, username/ports not yet), default
the `username` key, coerce ports, and normalize the label. -/
def finalizePrepare (account : Account) : Account :=
  let s0 := account.settings
  let s1 := if jsTruthyStrOpt s0.imap_host then { s0 with imap_host := s0.imap_host.map String.trim }
            else s0
  let s2 := if jsTruthyStrOpt s1.smtp_host then { s1 with smtp_host := s1.smtp_host.map String.trim }
            else s1
  let newId := idForAccount account.emailAddress s2
  let s3 := { s2 with username := jsOrStrOpt s2.username s2.email }
  let s4 := if jsTruthyPortOpt s3.imap_port then { s3 with imap_port := s3.imap_port.map jsDivOne }
            else s3
  let s5 := if jsTruthyPortOpt s4.smtp_port then { s4 with smtp_port := s4.smtp_port.map jsDivOne }
            else s4
  let newLabel :=
    match account.label with
    | some l => if l ≠ "" ∧ l.contains (Char.ofNat 64) then some account.emailAddress else some l
    | none => none
  { account with settings := s5, id := newId, label := newLabel }

/-- `finalizeAndValidateAccount`: apply the preparation mutations, run the
external validator (its failure propagates as an error), and stamp
`authedAt` on success. -/
def finalizeAndValidateAccount (oenv : OAuthEnv) (account : Account) : Except String Account :=
  if oenv.validatorOk (finalizePrepare account) then
    .ok { finalizePrepare account with authedAt := some oenv.now }
  else .error "IMAP/SMTP connection test failed"

/-- The common tail of both OAuth builders: on a successful expansion,
overwrite the id with the identity hash computed from the given email
value, then finalize and validate; an expansion error propagates. -/
def andThenFinalize (oenv : OAuthEnv) (emailForId : String) (r : Except String Account) :
    Except String Account :=
  match r with
  | .error e => .error e
  | .ok account1 =>
    finalizeAndValidateAccount oenv
      { account1 with id := idForAccount emailForId account1.settings }

/-- `buildGmailAccountFromAuthResponse`: exchange the code, fetch the
profile, expand, assign the id, then finalize and validate. -/
def buildGmailAccountFromAuthResponse (env : Env) (oenv : OAuthEnv) : Except String Account :=
  match oenv.tokenResult with
  | .error e => .error e
  | .ok tokens =>
    if oenv.profileOk = false then .error "Gmail profile request failed"
    else
      let settings0 := { emptySettings with
        refresh_client_id := some GMAIL_CLIENT_ID
        refresh_token := some tokens.2 }
      let account0 : Account :=
        ⟨oenv.gmailName, oenv.gmailEmail, "gmail", settings0, "", none, none⟩
      andThenFinalize oenv oenv.gmailEmail (expandAccountWithCommonSettings env account0)

/-- `buildMicrosoftAccountFromAuthResponse`: like the Gmail builder, but
failing when the profile lacks a mailbox, and computing the interim id
from the absent `me.email` field of the Graph profile. -/
def buildMicrosoftAccountFromAuthResponse (env : Env) (oenv : OAuthEnv) (provider : String) :
    Except String Account :=
  match oenv.tokenResult with
  | .error e => .error e
  | .ok tokens =>
    if oenv.profileOk = false then .error "O365 profile request failed"
    else
      match oenv.msMail with
      | none => .error "There is no email mailbox associated with this account."
      | some mail =>
        if mail = "" then .error "There is no email mailbox associated with this account."
        else
          let settings0 := { emptySettings with
            refresh_client_id := some O365_CLIENT_ID
            refresh_token := some tokens.2 }
          let account0 : Account :=
            ⟨oenv.msDisplayName, mail, provider, settings0, "", none, none⟩
          andThenFinalize oenv (jsInterp oenv.msEmail)
            (expandAccountWithCommonSettings env account0)

/-! ## Helper lemmas -/

/-- The four settings fields the identity hash reads. -/
def criticalFields (s : Settings) :
    Option String × Option String × Option String × Option String :=
  (s.imap_username, s.imap_host, s.smtp_username, s.smtp_host)

theorem idForAccount_eq_of_critical (emailAddress : String) (s1 s2 : Settings)
    (h : criticalFields s1 = criticalFields s2) :
    idForAccount emailAddress s1 = idForAccount emailAddress s2 := by
  simp only [criticalFields, Prod.mk.injEq] at h
  obtain ⟨h1, h2, h3, h4⟩ := h
  simp [idForAccount, settingsThatCouldChangeMailContents, h1, h2, h3, h4]

/-! ## Concrete collaborators for witnesses and counterexamples -/

/-- A regex tester that never matches. -/
def noRegex : String → String → Bool := fun _ _ => false

/-- A regex tester for witnesses whose patterns are plain literals. -/
def eqRegex : String → String → Bool := fun p s => p = s

/-- DNS that always fails (`ENOTFOUND`). -/
def noDns : String → Except String (List MxRecord) := fun _ => .error "queryMx ENOTFOUND"

/-- HTTP fetch that always fails at the network level. -/
def noFetch : String → Except String FetchResp := fun _ => .error "FetchError: network failure"

/-- An XML parser that always fails. -/
def noParse : String → Except String AutoconfigDoc := fun _ => .error "SyntaxError"

/-- A fully offline environment with empty tables and the sentinel
container-folder default. -/
def offlineEnv : Env := ⟨noRegex, noDns, noFetch, noParse, [], [], "Mailspring"⟩

/-! ## Claim theorems -/

/-- C2: `idForAccount` depends only on the email address and the four
fields `imap_username, imap_host, smtp_username, smtp_host` — any two
settings agreeing on those four give the same id — and the id is the
first 8 hex characters of the SHA-256 digest of the email address
concatenated with the JSON of those four fields. -/
theorem idForAccount_deterministic_and_digest :
    (∀ (emailAddress : String) (s1 s2 : Settings),
      s1.imap_username = s2.imap_username → s1.imap_host = s2.imap_host →
      s1.smtp_username = s2.smtp_username → s1.smtp_host = s2.smtp_host →
      idForAccount emailAddress s1 = idForAccount emailAddress s2) ∧
    (∀ (emailAddress : String) (s : Settings),
      idForAccount emailAddress s =
        (sha256Hex (strUtf8 (emailAddress ++ jsonStringifyStrObj
          [("imap_username", s.imap_username), ("imap_host", s.imap_host),
           ("smtp_username", s.smtp_username), ("smtp_host", s.smtp_host)]))).take 8) := by
  constructor
  · intro emailAddress s1 s2 h1 h2 h3 h4
    exact idForAccount_eq_of_critical emailAddress s1 s2 (by
      simp [criticalFields, h1, h2, h3, h4])
  · intro emailAddress s
    rfl

/-- Witness for C2: two settings differing in password, ports and security
but agreeing on the four critical fields hash to the same id. -/
theorem idForAccount_deterministic_and_digest_witness :
    idForAccount "user@example.com"
      { emptySettings with
          imap_username := some "user@example.com"
          imap_host := some "imap.example.com"
          smtp_username := some "user@example.com"
          smtp_host := some "smtp.example.com"
          imap_password := some "hunter2"
          imap_port := some (PortV.num 143)
          imap_security := some "none" } =
    idForAccount "user@example.com"
      { emptySettings with
          imap_username := some "user@example.com"
          imap_host := some "imap.example.com"
          smtp_username := some "user@example.com"
          smtp_host := some "smtp.example.com"
          smtp_password := some "other"
          smtp_port := some (PortV.num 587)
          smtp_security := some "STARTTLS" } :=
  idForAccount_deterministic_and_digest.1 "user@example.com" _ _ rfl rfl rfl rfl

/-- C9: `mxRecordsForDomain` never rejects — a lookup error resolves to
the empty list, and success resolves to the exchange hostnames
lower-cased with record order preserved (a `map`). -/
theorem mxRecordsForDomain_never_rejects :
    (∀ e : String, mxRecordsForDomain (.error e) = []) ∧
    (∀ addresses : List MxRecord,
      mxRecordsForDomain (.ok addresses) = addresses.map (fun a => jsToLower a.exchange)) :=
  ⟨fun _ => rfl, fun _ => rfl⟩

/-- C8: the derived username is the local part of the email address
exactly when the entry's username field is the literal `%EMAILLOCALPART%`
placeholder (full address otherwise), and security maps socketType
`plain` to `None`, `STARTTLS` to `STARTTLS`, `SSL` to `SSL / TLS`, and
anything else (or missing) to `STARTTLS`. -/
theorem extractServerDetails_username_security :
    ∀ (server : AutoconfigServer) (account : Account),
      (server.username = some "%EMAILLOCALPART%" →
        (extractServerDetails server account).username = localPartOf account.emailAddress) ∧
      (server.username ≠ some "%EMAILLOCALPART%" →
        (extractServerDetails server account).username = account.emailAddress) ∧
      (server.socketType = some "plain" →
        (extractServerDetails server account).security = "None") ∧
      (server.socketType = some "STARTTLS" →
        (extractServerDetails server account).security = "STARTTLS") ∧
      (server.socketType = some "SSL" →
        (extractServerDetails server account).security = "SSL / TLS") ∧
      (server.socketType ≠ some "plain" → server.socketType ≠ some "STARTTLS" →
        server.socketType ≠ some "SSL" →
        (extractServerDetails server account).security = "STARTTLS") := by
  intro server account
  refine ⟨?_, ?_, ?_, ?_, ?_, ?_⟩
  · intro h; simp [extractServerDetails, h]
  · intro h
    rcases hu : server.username with _ | u
    · simp [extractServerDetails, hu]
    · rw [hu] at h
      have : u ≠ "%EMAILLOCALPART%" := fun hc => h (by rw [hc])
      simp [extractServerDetails, hu, this]
  · intro h; simp [extractServerDetails, h]
  · intro h; simp [extractServerDetails, h]
  · intro h; simp [extractServerDetails, h]
  · intro h1 h2 h3
    rcases hs : server.socketType with _ | st
    · simp [extractServerDetails, hs]
    · rw [hs] at h1 h2 h3
      have n1 : st ≠ "plain" := fun hc => h1 (by rw [hc])
      have n2 : st ≠ "STARTTLS" := fun hc => h2 (by rw [hc])
      have n3 : st ≠ "SSL" := fun hc => h3 (by rw [hc])
      simp [extractServerDetails, hs, n1, n2, n3]

/-- Witness for C8: a concrete entry with the placeholder username and
socketType `SSL`, against account `ada@example.com`. -/
theorem extractServerDetails_username_security_witness :
    (extractServerDetails
      ⟨"imap", some "mail.example.com", some "993", some "%EMAILLOCALPART%", some "SSL"⟩
      ⟨none, "ada@example.com", "imap", emptySettings, "", none, none⟩).username = "ada" ∧
    (extractServerDetails
      ⟨"imap", some "mail.example.com", some "993", some "%EMAILLOCALPART%", some "SSL"⟩
      ⟨none, "ada@example.com", "imap", emptySettings, "", none, none⟩).security = "SSL / TLS" := by
  constructor
  · have h := (extractServerDetails_username_security
      ⟨"imap", some "mail.example.com", some "993", some "%EMAILLOCALPART%", some "SSL"⟩
      ⟨none, "ada@example.com", "imap", emptySettings, "", none, none⟩).1 rfl
    have hl : localPartOf "ada@example.com" = "ada" := by decide
    rw [hl] at h
    exact h
  · exact (extractServerDetails_username_security
      ⟨"imap", some "mail.example.com", some "993", some "%EMAILLOCALPART%", some "SSL"⟩
      ⟨none, "ada@example.com", "imap", emptySettings, "", none, none⟩).2.2.2.2.1 rfl

/-- A preset template carrying an explicit port `0` and no security field. -/
def zeroPortTemplate : MsTemplate :=
  { aliasKey := none
    imap_host := some "mail.zero.example"
    imap_port := some (PortV.num 0)
    imap_security := none
    imap_user_format := some "email"
    imap_allow_insecure_ssl := none
    smtp_host := some "smtp.zero.example"
    smtp_port := none
    smtp_security := none
    smtp_user_format := some "email"
    smtp_allow_insecure_ssl := none
    container_folder := some "" }

def envPortZero : Env := { offlineEnv with mailspringTable := [("zero.example", zeroPortTemplate)] }

def acctPortZero : Account := ⟨none, "user@zero.example", "imap", emptySettings, "", none, none⟩

/-- C3 counterexample: on the preset path, a template with `imap_port`
present but equal to `0` (and no security) is handled by the
neither-present branch — the result is security `SSL / TLS` with port
`993`, not security `none` with the template's port `0` as the claim's
port-present rule predicts: JavaScript tests truthiness, and `0` is
falsy. -/
theorem preset_inference_port_zero_counterexample :
    zeroPortTemplate.imap_port = some (PortV.num 0) ∧
    zeroPortTemplate.imap_security = none ∧
    (expandAccountWithCommonSettings envPortZero acctPortZero).toOption.map
      (fun r => (r.settings.imap_security, r.settings.imap_port)) =
      some (some "SSL / TLS", some (PortV.num 993)) ∧
    (some (some "SSL / TLS", some (PortV.num 993)) :
        Option (Option String × Option PortV)) ≠
      some (some "none", some (PortV.num 0)) := by decide

/-- C3 (amended): on the preset path, with "present" meaning present and
truthy (a nonzero numeric port; a nonempty security string), inference
is applied independently for IMAP and SMTP: neither present gives
SSL / TLS with 993 (IMAP) or 465 (SMTP); port present without security
gives SSL / TLS exactly at 993 for IMAP and STARTTLS at 587 /
SSL / TLS at 465 / none otherwise for SMTP, port unchanged; security
present without port gives 993 for SSL / TLS else 143 for IMAP and
587 / 465 / 25 by tier for SMTP. -/
theorem preset_inference_rules :
    ∀ (sec0 : Option String) (port0 : Option Nat),
      (jsTruthyStrOpt sec0 = false → jsTruthyNumOpt port0 = false →
        presetInferImap sec0 port0 = ("SSL / TLS", 993) ∧
        presetInferSmtp sec0 port0 = ("SSL / TLS", 465)) ∧
      (∀ n : Nat, jsTruthyStrOpt sec0 = false → port0 = some n → n ≠ 0 →
        presetInferImap sec0 port0 = ((if n = 993 then "SSL / TLS" else "none"), n) ∧
        presetInferSmtp sec0 port0 =
          ((if n = 587 then "STARTTLS" else if n = 465 then "SSL / TLS" else "none"), n)) ∧
      (∀ s : String, sec0 = some s → s ≠ "" → jsTruthyNumOpt port0 = false →
        presetInferImap sec0 port0 = (s, if s = "SSL / TLS" then 993 else 143) ∧
        presetInferSmtp sec0 port0 =
          (s, if s = "STARTTLS" then 587 else if s = "SSL / TLS" then 465 else 25)) := by
  intro sec0 port0
  refine ⟨?_, ?_, ?_⟩
  · intro h1 h2
    constructor <;> simp [presetInferImap, presetInferSmtp, h1, h2]
  · intro n h1 hp hn
    subst hp
    have ht : jsTruthyNumOpt (some n) = true := by simp [jsTruthyNumOpt, hn]
    constructor <;> simp [presetInferImap, presetInferSmtp, h1, ht]
  · intro s hs hne hp
    subst hs
    have ht : jsTruthyStrOpt (some s) = true := by simp [jsTruthyStrOpt, hne]
    constructor <;> simp [presetInferImap, presetInferSmtp, ht, hp]

/-- Witness for C3 (amended), at the spec's own examples: SMTP port 587
without security gives STARTTLS; SMTP security SSL / TLS without port
gives 465; IMAP with neither gives SSL / TLS and 993. -/
theorem preset_inference_rules_witness :
    presetInferSmtp none (some 587) = ("STARTTLS", 587) ∧
    presetInferSmtp (some "SSL / TLS") none = ("SSL / TLS", 465) ∧
    presetInferImap none none = ("SSL / TLS", 993) := by
  refine ⟨?_, ?_, ?_⟩
  · have h := ((preset_inference_rules none (some 587)).2.1 587 rfl rfl (by decide)).2
    simpa using h
  · have h := ((preset_inference_rules (some "SSL / TLS") none).2.2 "SSL / TLS" rfl
      (by decide) rfl).2
    simpa using h
  · exact ((preset_inference_rules none none).1 rfl rfl).1

/-! ## Shape lemmas: every path merges defaults under the existing settings -/

theorem thunderbirdSettingsFromDoc_shape (ps : Settings) (account : Account) (domain : String)
    (docOpt : Option AutoconfigDoc) (s : Settings)
    (h : thunderbirdSettingsFromDoc ps account domain docOpt = some s) :
    ∃ d, s = mergeSettings d ps := by
  unfold thunderbirdSettingsFromDoc thunderbirdSettingsFromProvider at h
  repeat' split at h
  all_goals first
    | exact ⟨_, (Option.some.inj h).symm⟩
    | simp at h

theorem TryThunderbirdAutoconfig_shape (env : Env) (populated account acct : Account)
    (h : TryThunderbirdAutoconfig env populated account = some acct) :
    ∃ d, acct = { populated with settings := mergeSettings d populated.settings } := by
  unfold TryThunderbirdAutoconfig at h
  rw [Option.map_eq_some'] at h
  obtain ⟨s, hs, rfl⟩ := h
  obtain ⟨d, rfl⟩ := thunderbirdSettingsFromDoc_shape _ _ _ _ _ hs
  exact ⟨d, rfl⟩

theorem presetStage_shape (env : Env) (populated account : Account) (domain : String)
    (res : Account) (h : presetStage env populated account domain = .ok res) :
    ∃ d, res.settings =
      containerFolderOverride env.containerFolderDefault (mergeSettings d populated.settings) := by
  unfold presetStage presetApply at h
  repeat' split at h
  all_goals first
    | (injection h with h; exact ⟨_, by rw [← h]⟩)
    | simp at h

theorem containerFolderOverride_shape (dflt : String) (m : Settings) :
    ∃ c, containerFolderOverride dflt m = { m with container_folder := c } := by
  unfold containerFolderOverride
  split
  · exact ⟨some dflt, rfl⟩
  · exact ⟨m.container_folder, rfl⟩

theorem containerFolderOverride_preserves (dflt : String) (m : Settings) (v : String)
    (hm : m.container_folder = some v) (hv : v ≠ "") :
    containerFolderOverride dflt m = m := by
  unfold containerFolderOverride
  rw [if_neg]
  simp [hm, hv]

/-- Every successful expansion result is a merge of some defaults under the
incoming settings, with at most the container folder rewritten — and the
container folder survives whenever it was present and nonempty. -/
theorem expand_settings_shape (env : Env) (account res : Account)
    (h : expandAccountWithCommonSettings env account = .ok res) :
    ∃ d c, res.settings = { mergeSettings d account.settings with container_folder := c } ∧
      (∀ v : String, account.settings.container_folder = some v → v ≠ "" → c = some v) := by
  unfold expandAccountWithCommonSettings at h
  split at h
  · injection h with h
    refine ⟨_, (mergeSettings _ account.settings).container_folder, by rw [← h], ?_⟩
    intro v hv _
    simp [mergeSettings, oOr, hv]
  · split at h
    · next acct heq =>
      injection h with h
      obtain ⟨d, rfl⟩ := TryThunderbirdAutoconfig_shape env account account acct heq
      refine ⟨d, (mergeSettings d account.settings).container_folder, by rw [← h], ?_⟩
      intro v hv _
      simp [mergeSettings, oOr, hv]
    · obtain ⟨d, hd⟩ := presetStage_shape env account account _ res h
      obtain ⟨c, hc⟩ := containerFolderOverride_shape env.containerFolderDefault
        (mergeSettings d account.settings)
      refine ⟨d, c, by rw [hd, hc], ?_⟩
      intro v hv hne
      have hm : (mergeSettings d account.settings).container_folder = some v := by
        simp [mergeSettings, oOr, hv]
      have := containerFolderOverride_preserves env.containerFolderDefault
        (mergeSettings d account.settings) v hm hne
      rw [this] at hc
      have := congrArg Settings.container_folder hc
      simp at this
      rw [← this, hm]

/-- C4 (amended): every settings field already present on the incoming
account is preserved by `expandAccountWithCommonSettings`, with the one
exception of `container_folder`, which is preserved whenever it is
nonempty (an existing empty-string `container_folder` can be replaced on
the preset path by the deployment default when that differs from
"Mailspring"). -/
theorem expand_existing_settings_win :
    ∀ (env : Env) (account res : Account),
      expandAccountWithCommonSettings env account = .ok res →
      (∀ v, account.settings.imap_host = some v → res.settings.imap_host = some v) ∧
      (∀ v, account.settings.imap_port = some v → res.settings.imap_port = some v) ∧
      (∀ v, account.settings.imap_username = some v → res.settings.imap_username = some v) ∧
      (∀ v, account.settings.imap_password = some v → res.settings.imap_password = some v) ∧
      (∀ v, account.settings.imap_security = some v → res.settings.imap_security = some v) ∧
      (∀ v, account.settings.imap_allow_insecure_ssl = some v →
        res.settings.imap_allow_insecure_ssl = some v) ∧
      (∀ v, account.settings.smtp_host = some v → res.settings.smtp_host = some v) ∧
      (∀ v, account.settings.smtp_port = some v → res.settings.smtp_port = some v) ∧
      (∀ v, account.settings.smtp_username = some v → res.settings.smtp_username = some v) ∧
      (∀ v, account.settings.smtp_password = some v → res.settings.smtp_password = some v) ∧
      (∀ v, account.settings.smtp_security = some v → res.settings.smtp_security = some v) ∧
      (∀ v, account.settings.smtp_allow_insecure_ssl = some v →
        res.settings.smtp_allow_insecure_ssl = some v) ∧
      (∀ v, account.settings.username = some v → res.settings.username = some v) ∧
      (∀ v, account.settings.email = some v → res.settings.email = some v) ∧
      (∀ v, account.settings.refresh_client_id = some v →
        res.settings.refresh_client_id = some v) ∧
      (∀ v, account.settings.refresh_token = some v → res.settings.refresh_token = some v) ∧
      (∀ v, account.settings.container_folder = some v → v ≠ "" →
        res.settings.container_folder = some v) := by
  intro env account res h
  obtain ⟨d, c, hs, hc⟩ := expand_settings_shape env account res h
  rw [hs]
  refine ⟨?_, ?_, ?_, ?_, ?_, ?_, ?_, ?_, ?_, ?_, ?_, ?_, ?_, ?_, ?_, ?_, ?_⟩
  all_goals first
    | (intro v hv; simp [mergeSettings, oOr, hv]; done)
    | (intro v hv hne; exact hc v hv hne)

/-- A deployment whose default container folder is "Folders". -/
def envFolders : Env := { offlineEnv with containerFolderDefault := "Folders" }

def acctEmptyContainer : Account :=
  ⟨none, "user@unlisted.example", "imap",
   { emptySettings with container_folder := some "" }, "", none, none⟩

/-- C4 counterexample: a `container_folder` already present (as the empty
string) on the incoming account is not preserved — on the preset path
with deployment default "Folders" the returned value is "Folders". -/
theorem expand_existing_settings_win_counterexample :
    acctEmptyContainer.settings.container_folder = some "" ∧
    (expandAccountWithCommonSettings envFolders acctEmptyContainer).toOption.map
      (fun r => r.settings.container_folder) = some (some "Folders") ∧
    (some (some "Folders") : Option (Option String)) ≠ some (some "") := by decide

def acctKeepPassword : Account :=
  ⟨none, "user@unlisted.example", "imap",
   { emptySettings with imap_password := some "hunter2", container_folder := some "Keep" },
   "", none, none⟩

def resKeepPassword : Account :=
  (expandAccountWithCommonSettings envFolders acctKeepPassword).toOption.getD acctKeepPassword

/-- Witness for C4 (amended): a pre-set `imap_password` and a nonempty
`container_folder` survive expansion on the preset path. -/
theorem expand_existing_settings_win_witness :
    resKeepPassword.settings.imap_password = some "hunter2" ∧
    resKeepPassword.settings.container_folder = some "Keep" := by
  have h := expand_existing_settings_win envFolders acctKeepPassword resKeepPassword rfl
  exact ⟨h.2.2.2.1 "hunter2" rfl, h.2.2.2.2.2.2.2.2.2.2.2.2.2.2.2.2 "Keep" rfl (by decide)⟩

/-! ## Container-folder policy (C5) -/

theorem thunderbirdSettingsFromDoc_container (ps : Settings) (account : Account)
    (domain : String) (docOpt : Option AutoconfigDoc) (s : Settings)
    (h : thunderbirdSettingsFromDoc ps account domain docOpt = some s) :
    s.container_folder = oOr ps.container_folder (some "") := by
  unfold thunderbirdSettingsFromDoc thunderbirdSettingsFromProvider at h
  repeat' split at h
  all_goals first
    | (rw [← Option.some.inj h]; rfl)
    | simp at h

theorem TryThunderbirdAutoconfig_container (env : Env) (populated account acct : Account)
    (h : TryThunderbirdAutoconfig env populated account = some acct) :
    acct.settings.container_folder = oOr populated.settings.container_folder (some "") := by
  unfold TryThunderbirdAutoconfig at h
  rw [Option.map_eq_some'] at h
  obtain ⟨s, hs, rfl⟩ := h
  simpa using thunderbirdSettingsFromDoc_container _ _ _ _ _ hs

/-! ## Path-equation lemmas for `expandAccountWithCommonSettings` -/

theorem expand_eq_structured (env : Env) (account : Account) (template : McTemplate)
    (h : mailcoreFind env (mxRecordsForDomain (env.dns (domainOf account.emailAddress)))
      (domainOf account.emailAddress) = some template) :
    expandAccountWithCommonSettings env account =
      .ok { account with settings := mergeSettings (mailcoreDefaults template (domainOf account.emailAddress) account.emailAddress account.settings) account.settings } := by
  unfold expandAccountWithCommonSettings
  rw [h]

theorem expand_eq_autoconfig (env : Env) (account acct : Account)
    (h1 : mailcoreFind env (mxRecordsForDomain (env.dns (domainOf account.emailAddress)))
      (domainOf account.emailAddress) = none)
    (h2 : TryThunderbirdAutoconfig env account account = some acct) :
    expandAccountWithCommonSettings env account = .ok acct := by
  unfold expandAccountWithCommonSettings
  rw [h1, h2]

theorem expand_eq_presetStage (env : Env) (account : Account)
    (h1 : mailcoreFind env (mxRecordsForDomain (env.dns (domainOf account.emailAddress)))
      (domainOf account.emailAddress) = none)
    (h2 : TryThunderbirdAutoconfig env account account = none) :
    expandAccountWithCommonSettings env account =
      presetStage env account account (domainOf account.emailAddress) := by
  unfold expandAccountWithCommonSettings
  rw [h1, h2]

theorem presetStage_eq_apply (env : Env) (populated account : Account) (domain : String)
    (mst : MsTemplate)
    (h3 : presetTemplateFor env domain account.provider = some mst) :
    presetStage env populated account domain = presetApply env populated account domain mst := by
  unfold presetStage
  rw [h3]

theorem presetApply_eq (env : Env) (populated account : Account) (domain : String)
    (mst : MsTemplate) (ih sh : String)
    (hih : mst.imap_host = some ih) (hsh : mst.smtp_host = some sh) :
    presetApply env populated account domain mst =
      .ok { populated with settings := containerFolderOverride env.containerFolderDefault (mergeSettings (presetDefaults mst ih sh populated.settings account domain) populated.settings) } := by
  unfold presetApply
  rw [hih, hsh]

theorem presetApply_errNoImap (env : Env) (populated account : Account) (domain : String)
    (mst : MsTemplate) (hih : mst.imap_host = none) :
    presetApply env populated account domain mst = .error "TypeError: host is undefined" := by
  unfold presetApply
  rw [hih]

theorem presetApply_errNoSmtp (env : Env) (populated account : Account) (domain : String)
    (mst : MsTemplate) (ih : String)
    (hih : mst.imap_host = some ih) (hsh : mst.smtp_host = none) :
    presetApply env populated account domain mst = .error "TypeError: host is undefined" := by
  unfold presetApply
  rw [hih, hsh]

theorem containerFolderOverride_container (dflt : String) (m : Settings) :
    (containerFolderOverride dflt m).container_folder =
      if dflt ≠ "Mailspring" ∧ (m.container_folder = some "" ∨ m.container_folder = none)
      then some dflt else m.container_folder := by
  unfold containerFolderOverride
  split <;> rfl

/-- C5 (amended): the deployment-default substitution for an empty or
unset container folder runs only on the preset-table path.  On the
structured-table and autoconfig paths the returned `container_folder` is
the template's empty string (or the account's pre-existing value), even
when the deployment default differs from the sentinel "Mailspring"; on
the preset path the merged template value is replaced by the deployment
default exactly when it is empty or unset and the default differs from
"Mailspring". -/
theorem expand_container_folder_policy :
    (∀ (env : Env) (account res : Account) (template : McTemplate),
      mailcoreFind env (mxRecordsForDomain (env.dns (domainOf account.emailAddress)))
        (domainOf account.emailAddress) = some template →
      expandAccountWithCommonSettings env account = .ok res →
      res.settings.container_folder = oOr account.settings.container_folder (some "")) ∧
    (∀ (env : Env) (account res : Account),
      mailcoreFind env (mxRecordsForDomain (env.dns (domainOf account.emailAddress)))
        (domainOf account.emailAddress) = none →
      TryThunderbirdAutoconfig env account account = some res →
      expandAccountWithCommonSettings env account = .ok res ∧
      res.settings.container_folder = oOr account.settings.container_folder (some "")) ∧
    (∀ (env : Env) (account res : Account) (mst : MsTemplate),
      mailcoreFind env (mxRecordsForDomain (env.dns (domainOf account.emailAddress)))
        (domainOf account.emailAddress) = none →
      TryThunderbirdAutoconfig env account account = none →
      presetTemplateFor env (domainOf account.emailAddress) account.provider = some mst →
      expandAccountWithCommonSettings env account = .ok res →
      res.settings.container_folder =
        (if env.containerFolderDefault ≠ "Mailspring" ∧
            (oOr account.settings.container_folder mst.container_folder = some "" ∨
             oOr account.settings.container_folder mst.container_folder = none)
         then some env.containerFolderDefault
         else oOr account.settings.container_folder mst.container_folder)) := by
  refine ⟨?_, ?_, ?_⟩
  · intro env account res template h1 h2
    rw [expand_eq_structured env account template h1] at h2
    injection h2 with h2
    rw [← h2]
    rfl
  · intro env account res h1 h2
    exact ⟨expand_eq_autoconfig env account res h1 h2,
      TryThunderbirdAutoconfig_container env account account res h2⟩
  · intro env account res mst h1 h2 h3 h4
    rw [expand_eq_presetStage env account h1 h2,
      presetStage_eq_apply env account account _ mst h3] at h4
    rcases hih : mst.imap_host with _ | ih
    · rw [presetApply_errNoImap env account account _ mst hih] at h4
      simp at h4
    rcases hsh : mst.smtp_host with _ | sh
    · rw [presetApply_errNoSmtp env account account _ mst ih hih hsh] at h4
      simp at h4
    rw [presetApply_eq env account account _ mst ih sh hih hsh] at h4
    injection h4 with h4
    rw [← h4]
    show (containerFolderOverride env.containerFolderDefault _).container_folder = _
    rw [containerFolderOverride_container]
    rfl

/-- A structured-table template for `structured.example` with SSL servers. -/
def mcStructuredTemplate : McTemplate :=
  ⟨["structured.example"], [],
   [⟨some "imap.structured.example", some 993, none, some true, none⟩],
   [⟨some "smtp.structured.example", some 465, none, some true, none⟩]⟩

def envStructured : Env :=
  { offlineEnv with
      anchoredRegexTest := eqRegex
      mailcoreTable := [mcStructuredTemplate]
      containerFolderDefault := "Folders" }

def acctStructured : Account :=
  ⟨none, "user@structured.example", "imap", emptySettings, "", none, none⟩

/-- C5 counterexample: the structured-table path leaves the template's
empty `container_folder` in place even though the deployment default
("Folders") differs from the sentinel "Mailspring" — the claim's
"whichever source matched" override does not happen there. -/
theorem expand_container_folder_policy_counterexample :
    (mailcoreFind envStructured
      (mxRecordsForDomain (envStructured.dns (domainOf acctStructured.emailAddress)))
      (domainOf acctStructured.emailAddress)).isSome = true ∧
    envStructured.containerFolderDefault = "Folders" ∧
    acctStructured.settings.container_folder = none ∧
    (expandAccountWithCommonSettings envStructured acctStructured).toOption.map
      (fun r => r.settings.container_folder) = some (some "") ∧
    (some (some "") : Option (Option String)) ≠ some (some "Folders") := by decide

def acctNoContainer : Account :=
  ⟨none, "user@unlisted.example", "imap", emptySettings, "", none, none⟩

def resNoContainer : Account :=
  (expandAccountWithCommonSettings envFolders acctNoContainer).toOption.getD acctNoContainer

/-- Witness for C5 (amended): on the preset path with the generated
fallback template (empty container folder) and deployment default
"Folders", the override fires. -/
theorem expand_container_folder_policy_witness :
    resNoContainer.settings.container_folder = some "Folders" := by
  have h := expand_container_folder_policy.2.2 envFolders acctNoContainer resNoContainer
    (fallbackTemplate "unlisted.example") rfl rfl rfl rfl
  simpa using h

/-! ## Source priority (C1) -/

theorem mailcoreFind_congr (env1 env2 : Env) (mx : List String) (domain : String)
    (hr : env1.anchoredRegexTest = env2.anchoredRegexTest)
    (ht : env1.mailcoreTable = env2.mailcoreTable) :
    mailcoreFind env1 mx domain = mailcoreFind env2 mx domain := by
  unfold mailcoreFind mailcoreMatches
  rw [hr, ht]

theorem getThunderbirdAutoconfig_congr (env1 env2 : Env) (url : String)
    (hf : env1.fetch = env2.fetch) (hp : env1.parseXml = env2.parseXml) :
    getThunderbirdAutoconfig env1 url = getThunderbirdAutoconfig env2 url := by
  unfold getThunderbirdAutoconfig getThunderbirdAutoconfigBody
  rw [hf, hp]

theorem TryThunderbirdAutoconfig_congr (env1 env2 : Env) (populated account : Account)
    (hf : env1.fetch = env2.fetch) (hp : env1.parseXml = env2.parseXml) :
    TryThunderbirdAutoconfig env1 populated account =
      TryThunderbirdAutoconfig env2 populated account := by
  have hg : getThunderbirdAutoconfig env1 = getThunderbirdAutoconfig env2 :=
    funext (fun url => getThunderbirdAutoconfig_congr env1 env2 url hf hp)
  unfold TryThunderbirdAutoconfig
  rw [hg]

/-- C1: the resolution sources are consulted in the fixed order
structured table → autoconfig documents → preset table; the first source
that produces a usable template fully determines the returned settings,
and later sources are not consulted (the result is invariant under
changing every component only a later source reads). -/
theorem expand_source_priority :
    (∀ (env : Env) (account : Account) (template : McTemplate),
      mailcoreFind env (mxRecordsForDomain (env.dns (domainOf account.emailAddress)))
        (domainOf account.emailAddress) = some template →
      expandAccountWithCommonSettings env account =
        .ok { account with settings := mergeSettings (mailcoreDefaults template (domainOf account.emailAddress) account.emailAddress account.settings) account.settings }) ∧
    (∀ (env1 env2 : Env) (account : Account),
      env1.anchoredRegexTest = env2.anchoredRegexTest → env1.dns = env2.dns →
      env1.mailcoreTable = env2.mailcoreTable →
      (mailcoreFind env1 (mxRecordsForDomain (env1.dns (domainOf account.emailAddress)))
        (domainOf account.emailAddress)).isSome = true →
      expandAccountWithCommonSettings env1 account = expandAccountWithCommonSettings env2 account) ∧
    (∀ (env : Env) (account acct : Account),
      mailcoreFind env (mxRecordsForDomain (env.dns (domainOf account.emailAddress)))
        (domainOf account.emailAddress) = none →
      TryThunderbirdAutoconfig env account account = some acct →
      expandAccountWithCommonSettings env account = .ok acct) ∧
    (∀ (env1 env2 : Env) (account : Account),
      env1.anchoredRegexTest = env2.anchoredRegexTest → env1.dns = env2.dns →
      env1.mailcoreTable = env2.mailcoreTable → env1.fetch = env2.fetch →
      env1.parseXml = env2.parseXml →
      mailcoreFind env1 (mxRecordsForDomain (env1.dns (domainOf account.emailAddress)))
        (domainOf account.emailAddress) = none →
      (TryThunderbirdAutoconfig env1 account account).isSome = true →
      expandAccountWithCommonSettings env1 account = expandAccountWithCommonSettings env2 account) ∧
    (∀ (env : Env) (account : Account),
      mailcoreFind env (mxRecordsForDomain (env.dns (domainOf account.emailAddress)))
        (domainOf account.emailAddress) = none →
      TryThunderbirdAutoconfig env account account = none →
      expandAccountWithCommonSettings env account =
        presetStage env account account (domainOf account.emailAddress)) := by
  refine ⟨?_, ?_, ?_, ?_, ?_⟩
  · exact expand_eq_structured
  · intro env1 env2 account hr hdns htab h4
    obtain ⟨t, ht⟩ := Option.isSome_iff_exists.mp h4
    have hmx : mxRecordsForDomain (env1.dns (domainOf account.emailAddress)) =
        mxRecordsForDomain (env2.dns (domainOf account.emailAddress)) := by rw [hdns]
    have hfind2 : mailcoreFind env2
        (mxRecordsForDomain (env2.dns (domainOf account.emailAddress)))
        (domainOf account.emailAddress) = some t := by
      rw [← hmx, ← mailcoreFind_congr env1 env2 _ _ hr htab]
      exact ht
    rw [expand_eq_structured env1 account t ht, expand_eq_structured env2 account t hfind2]
  · exact expand_eq_autoconfig
  · intro env1 env2 account hr hdns htab hf hp h1 h4
    obtain ⟨acct, hacct⟩ := Option.isSome_iff_exists.mp h4
    have hmx : mxRecordsForDomain (env1.dns (domainOf account.emailAddress)) =
        mxRecordsForDomain (env2.dns (domainOf account.emailAddress)) := by rw [hdns]
    have hfind2 : mailcoreFind env2
        (mxRecordsForDomain (env2.dns (domainOf account.emailAddress)))
        (domainOf account.emailAddress) = none := by
      rw [← hmx, ← mailcoreFind_congr env1 env2 _ _ hr htab]
      exact h1
    have h2' : TryThunderbirdAutoconfig env2 account account = some acct := by
      rw [← TryThunderbirdAutoconfig_congr env1 env2 account account hf hp]
      exact hacct
    rw [expand_eq_autoconfig env1 account acct h1 hacct,
      expand_eq_autoconfig env2 account acct hfind2 h2']
  · exact expand_eq_presetStage

/-- An environment agreeing with `envStructured` on everything the
structured table reads, but with different autoconfig collaborators and
preset table. -/
def envStructuredVariant : Env :=
  { envStructured with
      mailspringTable := [("structured.example", zeroPortTemplate)]
      containerFolderDefault := "Elsewhere"
      parseXml := fun _ => .error "different parser" }

/-- Witness for C1: with no structured match and failing autoconfig the
expansion equals the preset stage, and a structured-table hit makes the
expansion ignore the autoconfig and preset components entirely. -/
theorem expand_source_priority_witness :
    expandAccountWithCommonSettings offlineEnv acctNoContainer =
      presetStage offlineEnv acctNoContainer acctNoContainer "unlisted.example" ∧
    expandAccountWithCommonSettings envStructured acctStructured =
      expandAccountWithCommonSettings envStructuredVariant acctStructured := by
  constructor
  · have h := expand_source_priority.2.2.2.2 offlineEnv acctNoContainer rfl rfl
    have hd : domainOf acctNoContainer.emailAddress = "unlisted.example" := by decide
    rw [hd] at h
    exact h
  · exact expand_source_priority.2.1 envStructured envStructuredVariant acctStructured
      rfl rfl rfl (by decide)

/-! ## Autoconfig failure handling (C6) -/

/-- C6: a network failure, a non-2xx response, or an XML parse failure on
an autoconfig URL makes `getThunderbirdAutoconfig` return `false`
(`none`) rather than raise; the second candidate URL is consulted exactly
when the first yields `false`, and when both fail
`expandAccountWithCommonSettings` falls through to the preset stage (no
error from the autoconfig source reaches the caller). -/
theorem autoconfig_failure_falls_through :
    (∀ (env : Env) (url e : String), env.fetch url = .error e →
      getThunderbirdAutoconfig env url = none) ∧
    (∀ (env : Env) (url : String) (resp : FetchResp), env.fetch url = .ok resp →
      resp.ok = false → getThunderbirdAutoconfig env url = none) ∧
    (∀ (env : Env) (url : String) (resp : FetchResp) (e : String), env.fetch url = .ok resp →
      resp.ok = true → env.parseXml resp.body = .error e →
      getThunderbirdAutoconfig env url = none) ∧
    (∀ (env : Env) (populated account : Account),
      getThunderbirdAutoconfig env (autoconfigUrl1 (domainOf account.emailAddress)) = none →
      TryThunderbirdAutoconfig env populated account =
        (thunderbirdSettingsFromDoc populated.settings account (domainOf account.emailAddress)
          (getThunderbirdAutoconfig env (autoconfigUrl2 (domainOf account.emailAddress)))).map
          (fun s => { populated with settings := s })) ∧
    (∀ (env : Env) (account : Account),
      mailcoreFind env (mxRecordsForDomain (env.dns (domainOf account.emailAddress)))
        (domainOf account.emailAddress) = none →
      getThunderbirdAutoconfig env (autoconfigUrl1 (domainOf account.emailAddress)) = none →
      getThunderbirdAutoconfig env (autoconfigUrl2 (domainOf account.emailAddress)) = none →
      expandAccountWithCommonSettings env account =
        presetStage env account account (domainOf account.emailAddress)) := by
  refine ⟨?_, ?_, ?_, ?_, ?_⟩
  · intro env url e h
    simp [getThunderbirdAutoconfig, getThunderbirdAutoconfigBody, h, Except.toOption]
  · intro env url resp h1 h2
    simp [getThunderbirdAutoconfig, getThunderbirdAutoconfigBody, h1, h2, Except.toOption]
  · intro env url resp e h1 h2 h3
    simp [getThunderbirdAutoconfig, getThunderbirdAutoconfigBody, h1, h2, h3, Except.toOption]
  · intro env populated account h
    simp only [TryThunderbirdAutoconfig]
    rw [h]
  · intro env account h1 h2 h3
    have htry : TryThunderbirdAutoconfig env account account = none := by
      simp only [TryThunderbirdAutoconfig]
      rw [h2, h3]
      rfl
    exact expand_eq_presetStage env account h1 htry

/-- Witness for C6: a network-level failure on both URLs yields `none`
from the fetcher and the preset stage from the expansion. -/
theorem autoconfig_failure_falls_through_witness :
    getThunderbirdAutoconfig offlineEnv
      (autoconfigUrl1 (domainOf acctNoContainer.emailAddress)) = none ∧
    expandAccountWithCommonSettings offlineEnv acctNoContainer =
      presetStage offlineEnv acctNoContainer acctNoContainer
        (domainOf acctNoContainer.emailAddress) := by
  constructor
  · exact autoconfig_failure_falls_through.1 offlineEnv _ "FetchError: network failure" rfl
  · exact autoconfig_failure_falls_through.2.2.2.2 offlineEnv acctNoContainer rfl rfl rfl

/-! ## Missing typed server entries in an autoconfig document (C10) -/

/-- C10: when the selected provider declares both `incomingServer` and
`outgoingServer` but the incoming side has no `type="imap"` entry (or the
outgoing side no `type="smtp"` entry), `TryThunderbirdAutoconfig` still
succeeds: the corresponding host falls back to `imap.<domain>`
(`smtp.<domain>`) and the corresponding port, username, and security
stay undefined (for an account with no pre-existing settings). -/
theorem autoconfig_missing_typed_server :
    ∀ (env : Env) (account : Account) (doc : AutoconfigDoc) (p : EmailProvider)
      (inc outg : OneOrMany AutoconfigServer),
      account.settings = emptySettings →
      getThunderbirdAutoconfig env (autoconfigUrl1 (domainOf account.emailAddress)) = some doc →
      doc.emailProvider = some (OneOrMany.one p) →
      p.incomingServer = some inc → p.outgoingServer = some outg →
      (findServerOfType "imap" inc = none →
        (TryThunderbirdAutoconfig env account account).map (fun a =>
          (a.settings.imap_host, a.settings.imap_port, a.settings.imap_username,
           a.settings.imap_security)) =
          some (some ("imap." ++ domainOf account.emailAddress), none, none, none)) ∧
      (findServerOfType "smtp" outg = none →
        (TryThunderbirdAutoconfig env account account).map (fun a =>
          (a.settings.smtp_host, a.settings.smtp_port, a.settings.smtp_username,
           a.settings.smtp_security)) =
          some (some ("smtp." ++ domainOf account.emailAddress), none, none, none)) := by
  intro env account doc p inc outg hset hget hep hinc houtg
  have hsel : selectedProvider doc (domainOf account.emailAddress) = some p := by
    unfold selectedProvider
    rw [hep]
  have hdoc : thunderbirdSettingsFromDoc account.settings account (domainOf account.emailAddress)
      (some doc) =
      some (mergeSettings (autoconfigDefaults account.settings account
        (domainOf account.emailAddress) inc outg) account.settings) := by
    unfold thunderbirdSettingsFromDoc thunderbirdSettingsFromProvider
    simp [hsel, hinc, houtg]
  have htry : TryThunderbirdAutoconfig env account account =
      some { account with settings := mergeSettings (autoconfigDefaults account.settings account (domainOf account.emailAddress) inc outg) account.settings } := by
    simp only [TryThunderbirdAutoconfig]
    rw [hget, hdoc]
    rfl
  rw [htry]
  constructor
  · intro hfind
    simp [mergeSettings, oOr, autoconfigDefaults, hfind, jsOrStrD, hset, emptySettings]
  · intro hfind
    simp [mergeSettings, oOr, autoconfigDefaults, hfind, jsOrStrD, hset, emptySettings]

def docW10 : AutoconfigDoc :=
  ⟨some (OneOrMany.one
    ⟨"w10.example",
     some (OneOrMany.many [⟨"pop3", some "pop.w10.example", some "995", none, some "SSL"⟩]),
     some (OneOrMany.one ⟨"smtp", some "mail.w10.example", some "465", none, some "SSL"⟩)⟩)⟩

def envW10 : Env :=
  { offlineEnv with
      fetch := fun _ => .ok ⟨true, 200, "xml-body"⟩
      parseXml := fun _ => .ok docW10 }

def acctW10 : Account := ⟨none, "user@w10.example", "imap", emptySettings, "", none, none⟩

/-- Witness for C10: a document whose incoming servers hold only a `pop3`
entry still succeeds, with the IMAP host defaulted to `imap.w10.example`
and the IMAP port, username, and security left undefined. -/
theorem autoconfig_missing_typed_server_witness :
    (TryThunderbirdAutoconfig envW10 acctW10 acctW10).map (fun a =>
      (a.settings.imap_host, a.settings.imap_port, a.settings.imap_username,
       a.settings.imap_security)) =
      some (some "imap.w10.example", none, none, none) := by
  have h := (autoconfig_missing_typed_server envW10 acctW10 docW10
    ⟨"w10.example",
     some (OneOrMany.many [⟨"pop3", some "pop.w10.example", some "995", none, some "SSL"⟩]),
     some (OneOrMany.one ⟨"smtp", some "mail.w10.example", some "465", none, some "SSL"⟩)⟩
    (OneOrMany.many [⟨"pop3", some "pop.w10.example", some "995", none, some "SSL"⟩])
    (OneOrMany.one ⟨"smtp", some "mail.w10.example", some "465", none, some "SSL"⟩)
    rfl rfl rfl rfl rfl).1 (by decide)
  have hd : "imap." ++ domainOf acctW10.emailAddress = "imap.w10.example" := by decide
  rw [hd] at h
  exact h

/-! ## Builder identity consistency (C7) -/

/-- A build result is id-consistent when, on success, the returned
account's id is the identity hash of its own email address and final
settings (errors are vacuously consistent). -/
def returnedIdConsistent : Except String Account → Prop
  | .error _ => True
  | .ok a => a.id = idForAccount a.emailAddress a.settings

theorem finalizePrepare_id (account : Account) :
    (finalizePrepare account).id =
      idForAccount (finalizePrepare account).emailAddress (finalizePrepare account).settings := by
  simp only [finalizePrepare]
  apply idForAccount_eq_of_critical
  simp only [criticalFields]
  repeat' split
  all_goals rfl

theorem finalize_id_consistent (oenv : OAuthEnv) (account : Account) :
    returnedIdConsistent (finalizeAndValidateAccount oenv account) := by
  unfold finalizeAndValidateAccount
  split
  · simp only [returnedIdConsistent]
    exact finalizePrepare_id account
  · simp only [returnedIdConsistent]

theorem andThenFinalize_consistent (oenv : OAuthEnv) (emailForId : String)
    (r : Except String Account) :
    returnedIdConsistent (andThenFinalize oenv emailForId r) := by
  rcases r with e | a
  · trivial
  · exact finalize_id_consistent oenv _

/-- C7: every account returned by `buildGmailAccountFromAuthResponse` or
`buildMicrosoftAccountFromAuthResponse` carries an id equal to the
identity hash of its own email address and its final connection settings
(the finalizer recomputes the id after trimming hosts, and the later
username/port/label mutations do not touch the four hashed fields). -/
theorem builders_assign_consistent_id :
    ∀ (env : Env) (oenv : OAuthEnv) (provider : String),
      returnedIdConsistent (buildGmailAccountFromAuthResponse env oenv) ∧
      returnedIdConsistent (buildMicrosoftAccountFromAuthResponse env oenv provider) := by
  intro env oenv provider
  constructor
  · unfold buildGmailAccountFromAuthResponse
    repeat' split
    all_goals first
      | exact andThenFinalize_consistent oenv _ _
      | trivial
  · unfold buildMicrosoftAccountFromAuthResponse
    repeat' split
    all_goals first
      | exact andThenFinalize_consistent oenv _ _
      | trivial

end Mailspring
